import Mathlib

/-!
Shallow embedding of `src/mcps/Chronolog/src/chronomcp/reader_script/reader.cpp`,
the ChronoLog archive-reader query client: one query per invocation, a global
result collection (`list_of_chunks`), a global agent pointer (`agent_ptr`), a
SIGINT handler (`signalHandler`) that tears both down, and a straight-line
`main` that parses flags, checks the configuration file, reads a time range
through the backend, renders the chunks, releases them and shuts down.

The backend (`HDF5ArchiveReadingAgent`) is an external collaborator: it is
modelled as an oracle (`Backend`) supplying the results that its calls would
report.  Crucially, `reader.cpp` discards the status results of both
`agent_ptr->initialize()` (line 75) and `agent_ptr->readArchivedStory(...)`
(line 80); the model records those reported statuses in the trace while the
control flow ignores them, exactly as the C++ does.

Each `std::cout`/`std::cerr` statement that ends in a newline is modelled as
one `Effect.out`/`Effect.err` carrying the line without its trailing newline.
Chunk pointers are modelled as addresses (`Nat`); `delete chunk` becomes the
trace event `Effect.deleteChunk a`, so exactly-once destruction is the
statement that each live address occurs exactly once among the `deleteChunk`
events of a run.
-/

/-- One archived event, as printed by the render loop (reader.cpp lines 88-94):
`storyId` and `clientId` are unsigned, `eventTime` is a signed 64-bit time,
`eventIndex` is the per-record sequence index, `logRecord` the payload. -/
structure Event where
  storyId : Nat
  eventTime : Int
  clientId : Nat
  eventIndex : Nat
  logRecord : String
deriving DecidableEq, Repr

/-- A `chronolog::StoryChunk`: an ordered map from event index to event.
`events` lists the map's entries in its iteration order (ascending key);
`getEventCount` is the map's size. -/
structure StoryChunk where
  events : List (Nat × Event)
deriving DecidableEq, Repr

def StoryChunk.getEventCount (c : StoryChunk) : Nat := c.events.length

/-- Observable effects of one run, in program order. `agentInit` and
`agentRead` record the status the backend reported (which reader.cpp
discards); `agentRead` also records the contents of `list_of_chunks` at the
moment the call is made. -/
inductive Effect where
  | out (s : String)
  | err (s : String)
  | loggerInit
  | installHandler
  | agentNew
  | agentInit (ok : Bool)
  | agentRead (preCollection : List Nat) (ok : Bool)
  | agentShutdown
  | agentDelete
  | deleteChunk (a : Nat)
deriving DecidableEq, Repr

/-- How the process ended: `exited code` for `return`/`std::exit(code)`,
`aborted` for an uncaught exception (`std::terminate` → SIGABRT). -/
inductive Outcome where
  | exited (code : Nat)
  | aborted
deriving DecidableEq, Repr

def EXIT_FAILURE : Nat := 1

def ULLONG_MAX : Nat := 2 ^ 64 - 1

/-- Digit-prefix part of `std::stoull`: `none` models `std::invalid_argument`
(no digits) or `std::out_of_range` (value above `ULLONG_MAX`); a leading minus
sign wraps modulo 2^64, as `std::stoull` does. -/
def stoullDigits (cs : List Char) (neg : Bool) : Option Nat :=
  let ds := cs.takeWhile Char.isDigit
  if ds.isEmpty then none
  else
    let v := ds.foldl (fun acc c => acc * 10 + (c.toNat - 48)) 0
    if v > ULLONG_MAX then none
    else if neg then some ((2 ^ 64 - v % 2 ^ 64) % 2 ^ 64) else some v

/-- `std::stoull`: skip leading whitespace, optional sign, decimal digits.
`none` models a thrown exception (uncaught in reader.cpp). -/
def stoull (s : String) : Option Nat :=
  let cs := s.data.dropWhile (fun c => c = ' ' ∨ c = '\t' ∨ c = '\n')
  match cs with
  | '+' :: rest => stoullDigits rest false
  | '-' :: rest => stoullDigits rest true
  | rest => stoullDigits rest false

/-- The five query parameters of `main` (reader.cpp lines 26-30). -/
structure Config where
  conf_file : String
  chronicle_name : String
  story_name : String
  start_time : Nat
  end_time : Nat
deriving DecidableEq, Repr

def defaultStart : Nat := 1736800000000000000

def defaultEnd : Nat := 1745539189396295796 + 1000000000000000

def defaultConfig : Config :=
  { conf_file := ""
    chronicle_name := "LLM"
    story_name := "conversation"
    start_time := defaultStart
    end_time := defaultEnd }

/-- The flag loop of reader.cpp lines 33-47.  Every recognised flag requires a
following argument (`i+1 < argc`); a recognised flag consumes two positions, an
unrecognised argument (including a lone trailing flag) is silently skipped.
`Except.error` models the uncaught `std::stoull` exception.  The `fuel`
argument only forces termination: every iteration consumes at least one
argument, so `fuel := args.length` (as `parseLoop` passes) never runs out. -/
def parseFuel : Nat → List String → Config → Except Unit Config
  | _, [], c => .ok c
  | 0, _ :: _, c => .ok c
  | _ + 1, [_], c => .ok c
  | fuel + 1, a :: v :: rest, c =>
    if a = "-c" ∨ a = "--config" then parseFuel fuel rest { c with conf_file := v }
    else if a = "-C" then parseFuel fuel rest { c with chronicle_name := v }
    else if a = "-S" then parseFuel fuel rest { c with story_name := v }
    else if a = "-st" ∨ a = "--start" then
      match stoull v with
      | some n => parseFuel fuel rest { c with start_time := n }
      | none => .error ()
    else if a = "-et" ∨ a = "--end" then
      match stoull v with
      | some n => parseFuel fuel rest { c with end_time := n }
      | none => .error ()
    else parseFuel fuel (v :: rest) c

def parseLoop (args : List String) (c : Config) : Except Unit Config :=
  parseFuel args.length args c

/-- The usage message of reader.cpp lines 49-52 (note it advertises `-s` and
`-e`, which the flag loop above never reads). -/
def usageMsg (prog : String) : String :=
  "Usage: " ++ prog ++ " -c <config.json>" ++ " [-C chronicle] [-S story]"
    ++ " [-s startTime] [-e endTime]"

def readingMsg (c : Config) : String :=
  "Reading [" ++ toString c.start_time ++ "," ++ toString c.end_time
    ++ "] from " ++ c.chronicle_name ++ "." ++ c.story_name

/-- Oracle for the external collaborators of one run: the return value of
`chrono_monitor` setup (checked against 1 at line 67), the statuses the agent
would report from its open and read calls (both discarded by reader.cpp), the
chunk addresses the read appends to `list_of_chunks`, and the heap contents of
each chunk address. -/
structure Backend where
  loggerInit : Nat
  initOk : Bool
  readChunks : List Nat
  readOk : Bool
  heap : Nat → StoryChunk

/-- The record line printed for one event (reader.cpp lines 89-94). -/
def recordLine (e : Event) : String :=
  "  storyId=" ++ toString e.storyId ++ ", time=" ++ toString e.eventTime
    ++ ", clientId=" ++ toString e.clientId ++ ", index=" ++ toString e.eventIndex
    ++ ", record=\"" ++ e.logRecord ++ "\""

/-- One iteration of the render loop body (reader.cpp lines 86-95): the event
count header, then each record of the chunk's map in iteration order. -/
def renderChunk (hp : Nat → StoryChunk) (a : Nat) : List Effect :=
  Effect.out ("Chunk with " ++ toString (hp a).getEventCount ++ " events:")
    :: (hp a).events.map (fun kv => Effect.out (recordLine kv.2))

/-- The render loop of reader.cpp lines 85-97: prints each chunk and then
`delete chunk;` (line 96) — note the delete inside the loop. -/
def renderLoop (hp : Nat → StoryChunk) : List Nat → List Effect
  | [] => []
  | a :: rest => renderChunk hp a ++ [Effect.deleteChunk a] ++ renderLoop hp rest

/-- Lines 84-97: the chunk-count line followed by the render loop. -/
def renderAndDelete (hp : Nat → StoryChunk) (chunks : List Nat) : List Effect :=
  Effect.out (toString chunks.length ++ " chunk(s) returned.") :: renderLoop hp chunks

/-- `signalHandler` (reader.cpp lines 17-22), applied to the global state it
sees at delivery: prints, deletes every chunk still in `list_of_chunks`, shuts
down and deletes the agent if `agent_ptr` is non-null, and `std::exit(sig)`. -/
def signalHandler (sig : Nat) (chunks : List Nat) (agentLive : Bool) :
    List Effect × Outcome :=
  (Effect.out ("Interrupt (" ++ toString sig ++ ")")
      :: (chunks.map Effect.deleteChunk
        ++ if agentLive then [Effect.agentShutdown, Effect.agentDelete] else []),
    .exited sig)

/-- Result of one run: the effect trace, how the process ended, and the final
contents of the global `list_of_chunks`. -/
structure RunResult where
  trace : List Effect
  outcome : Outcome
  finalChunks : List Nat
deriving DecidableEq, Repr

/-- reader.cpp lines 56-111, after the configuration-file check: logger setup
(exit on failure), handler installed, agent constructed and opened (status
discarded), the read call on the still-empty global list (status discarded),
render-with-delete, the second cleanup loop (lines 100-102) over the unchanged
list, `clear()`, shutdown, agent delete, `return 0`. -/
def mainAfterConf (c : Config) (b : Backend) : RunResult :=
  if b.loggerInit = 1 then
    { trace := [Effect.loggerInit], outcome := .exited EXIT_FAILURE, finalChunks := [] }
  else
    let post := b.readChunks
    { trace :=
        [Effect.loggerInit, Effect.installHandler, Effect.agentNew,
          Effect.agentInit b.initOk, Effect.out (readingMsg c),
          Effect.agentRead [] b.readOk]
          ++ renderAndDelete b.heap post
          ++ post.map Effect.deleteChunk
          ++ [Effect.agentShutdown, Effect.agentDelete]
      outcome := .exited 0
      finalChunks := [] }

/-- `main` (reader.cpp lines 24-112): flag loop (an uncaught `std::stoull`
exception aborts), usage check when `conf_file` is empty, then the rest. -/
def mainModel (prog : String) (args : List String) (b : Backend) : RunResult :=
  match parseLoop args defaultConfig with
  | .error _ => { trace := [], outcome := .aborted, finalChunks := [] }
  | .ok c =>
    if c.conf_file = "" then
      { trace := [Effect.err (usageMsg prog)], outcome := .exited EXIT_FAILURE,
        finalChunks := [] }
    else mainAfterConf c b

/-- How many times address `a` is destroyed in a trace. -/
def deleteCount (a : Nat) (tr : List Effect) : Nat :=
  tr.countP (fun e => decide (e = Effect.deleteChunk a))

/-- How many times the backend shutdown is invoked in a trace. -/
def shutdownCount (tr : List Effect) : Nat :=
  tr.countP (fun e => decide (e = Effect.agentShutdown))

/-- The subsequence of backend calls (open, read, shutdown) in a trace. -/
def backendCalls (tr : List Effect) : List Effect :=
  tr.filter (fun e =>
    match e with
    | .agentInit _ => true
    | .agentRead _ _ => true
    | .agentShutdown => true
    | _ => false)

/-! Concrete oracles used to evaluate the model at specific inputs. -/

/-- A benign backend: logger setup succeeds, open and read succeed, the read
appends no chunks. -/
def bQuiet : Backend :=
  { loggerInit := 0, initOk := true, readChunks := [], readOk := true,
    heap := fun _ => { events := [] } }

def ev1 : Event :=
  { storyId := 1, eventTime := 1000, clientId := 2, eventIndex := 0, logRecord := "hello" }

/-- A heap whose every chunk address holds one event (index 0 ↦ `ev1`). -/
def heap1 : Nat → StoryChunk := fun _ => { events := [(0, ev1)] }

/-- A backend whose read appends a single chunk, at address 0. -/
def bOneChunk : Backend :=
  { loggerInit := 0, initOk := true, readChunks := [0], readOk := true,
    heap := fun _ => { events := [] } }

/-- A backend whose open call reports failure (`BackendUnavailableError`);
reader.cpp line 75 discards that status. -/
def bInitFail : Backend :=
  { loggerInit := 0, initOk := false, readChunks := [], readOk := true,
    heap := fun _ => { events := [] } }

/-- A backend whose read call reports failure (`ReadFailureError`) after
having appended one chunk (address 7, one event); reader.cpp line 80 discards
that status. -/
def bReadFail : Backend :=
  { loggerInit := 0, initOk := true, readChunks := [7], readOk := false, heap := heap1 }

/-! Helper lemmas. -/

theorem count_deleteChunk_map (a : Nat) (l : List Nat) :
    (l.map Effect.deleteChunk).countP (fun e => decide (e = Effect.deleteChunk a))
      = l.countP (fun x => decide (x = a)) := by
  induction l with
  | nil => rfl
  | cons b t ih => simp [List.countP_cons, ih, Effect.deleteChunk.injEq]

theorem countP_eq_one_of_nodup {l : List Nat} {a : Nat} (h : l.Nodup) (ha : a ∈ l) :
    l.countP (fun x => decide (x = a)) = 1 := by
  induction l with
  | nil => cases ha
  | cons b t ih =>
    rw [List.countP_cons]
    rcases List.mem_cons.mp ha with h1 | h1
    · subst h1
      have hbt : a ∉ t := (List.nodup_cons.mp h).1
      have hz : t.countP (fun x => decide (x = a)) = 0 :=
        List.countP_eq_zero.mpr (fun x hx => by
          simp only [decide_eq_true_eq]
          rintro rfl
          exact hbt hx)
      simp [hz]
    · have hba : ¬(b = a) := fun hh => by
        subst hh
        exact (List.nodup_cons.mp h).1 h1
      rw [ih (List.nodup_cons.mp h).2 h1]
      simp [hba]

theorem agentRead_notin_renderChunk (hp : Nat → StoryChunk) (x : Nat)
    (pre : List Nat) (ok : Bool) : Effect.agentRead pre ok ∉ renderChunk hp x := by
  simp [renderChunk, List.mem_cons, List.mem_map]

theorem agentRead_notin_renderLoop (hp : Nat → StoryChunk) (l : List Nat)
    (pre : List Nat) (ok : Bool) : Effect.agentRead pre ok ∉ renderLoop hp l := by
  induction l with
  | nil => simp [renderLoop]
  | cons a t ih =>
    simp [renderLoop, List.mem_append, agentRead_notin_renderChunk, ih]

/-- If none of the four recognised time flags occurs among the arguments, the
flag loop returns successfully with the start and end times unchanged. -/
theorem parseFuel_defaults (fuel : Nat) :
    ∀ (l : List String) (c : Config),
      "-st" ∉ l → "--start" ∉ l → "-et" ∉ l → "--end" ∉ l →
      ∃ c2, parseFuel fuel l c = .ok c2 ∧
        c2.start_time = c.start_time ∧ c2.end_time = c.end_time := by
  induction fuel with
  | zero =>
    intro l c _ _ _ _
    cases l with
    | nil => exact ⟨c, rfl, rfl, rfl⟩
    | cons a t => exact ⟨c, rfl, rfl, rfl⟩
  | succ fuel ih =>
    intro l c h1 h2 h3 h4
    cases l with
    | nil => exact ⟨c, rfl, rfl, rfl⟩
    | cons a t =>
      cases t with
      | nil => exact ⟨c, rfl, rfl, rfl⟩
      | cons v rest =>
        have ha : a ∈ a :: v :: rest := List.mem_cons_self _ _
        have u1 : "-st" ∉ v :: rest := fun hm => h1 (List.mem_cons_of_mem a hm)
        have u2 : "--start" ∉ v :: rest := fun hm => h2 (List.mem_cons_of_mem a hm)
        have u3 : "-et" ∉ v :: rest := fun hm => h3 (List.mem_cons_of_mem a hm)
        have u4 : "--end" ∉ v :: rest := fun hm => h4 (List.mem_cons_of_mem a hm)
        have t1 : "-st" ∉ rest := fun hm => u1 (List.mem_cons_of_mem v hm)
        have t2 : "--start" ∉ rest := fun hm => u2 (List.mem_cons_of_mem v hm)
        have t3 : "-et" ∉ rest := fun hm => u3 (List.mem_cons_of_mem v hm)
        have t4 : "--end" ∉ rest := fun hm => u4 (List.mem_cons_of_mem v hm)
        simp only [parseFuel]
        split_ifs with hc hC hS hst het
        · exact ih rest _ t1 t2 t3 t4
        · exact ih rest _ t1 t2 t3 t4
        · exact ih rest _ t1 t2 t3 t4
        · cases hst with
          | inl hh => exact absurd (hh ▸ ha) h1
          | inr hh => exact absurd (hh ▸ ha) h2
        · cases het with
          | inl hh => exact absurd (hh ▸ ha) h3
          | inr hh => exact absurd (hh ▸ ha) h4
        · exact ih (v :: rest) c u1 u2 u3 u4

/-! Claim theorems. -/

/-- Claim C1 (evidence of the code bug): on the normal path with one chunk
returned by the read, the chunk at address 0 is destroyed twice — once by the
render loop (reader.cpp line 96) and once more by the cleanup loop (lines
100-102), which runs over the unchanged list before `clear()`. -/
theorem c1_normal_path_double_free :
    deleteCount 0 (mainModel "reader" ["-c", "conf.json"] bOneChunk).trace = 2 ∧
    (mainModel "reader" ["-c", "conf.json"] bOneChunk).outcome = Outcome.exited 0 :=
  ⟨by decide, rfl⟩

/-- Claim C2 (evidence of the code bug): with flags giving start=2000 and
end=1000 (start > end), the flag loop accepts the inverted window, the backend
read is still invoked (the backend-call subsequence is open/read/shutdown, not
empty), and the process exits 0 — there is no rejection before the backend and
no non-zero exit. -/
theorem c2_inverted_range_not_rejected :
    parseLoop ["-c", "conf.json", "-st", "2000", "-et", "1000"] defaultConfig =
      .ok { conf_file := "conf.json", chronicle_name := "LLM",
            story_name := "conversation", start_time := 2000, end_time := 1000 } ∧
    backendCalls
        (mainModel "reader" ["-c", "conf.json", "-st", "2000", "-et", "1000"] bQuiet).trace =
      [Effect.agentInit true, Effect.agentRead [] true, Effect.agentShutdown] ∧
    (mainModel "reader" ["-c", "conf.json", "-st", "2000", "-et", "1000"] bQuiet).outcome =
      Outcome.exited 0 :=
  ⟨rfl, by decide, rfl⟩

/-- Claim C3 (evidence of the code bug): rendering a one-chunk collection
emits the chunk count, the event-count header and the record line in order —
but then releases the chunk as a side effect (`delete chunk;` at reader.cpp
line 96 is inside the render loop), contradicting the no-release contract. -/
theorem c3_render_releases_chunks :
    renderAndDelete heap1 [5] =
      [Effect.out "1 chunk(s) returned.",
       Effect.out "Chunk with 1 events:",
       Effect.out "  storyId=1, time=1000, clientId=2, index=0, record=\"hello\"",
       Effect.deleteChunk 5] := by decide

/-- Claim C4: if the interrupt handler runs while the result collection holds
distinct live chunks and the reader handle is live, every chunk in the
collection is deleted exactly once, the backend shutdown is invoked exactly
once, and the process exits with the received signal number. -/
theorem c4_interrupt_teardown (sig : Nat) (chunks : List Nat) (h : chunks.Nodup) :
    (∀ a ∈ chunks, deleteCount a (signalHandler sig chunks true).1 = 1) ∧
    shutdownCount (signalHandler sig chunks true).1 = 1 ∧
    (signalHandler sig chunks true).2 = Outcome.exited sig := by
  refine ⟨fun a ha => ?_, ?_, rfl⟩
  · have hcomp : ((fun e => decide (e = Effect.deleteChunk a)) ∘ Effect.deleteChunk)
        = fun x : Nat => decide (x = a) := by
      funext x
      simp [Function.comp, Effect.deleteChunk.injEq]
    simp [deleteCount, signalHandler, List.countP_cons, List.countP_append,
      List.countP_map, hcomp, countP_eq_one_of_nodup h ha]
  · have hz : (chunks.map Effect.deleteChunk).countP
        (fun e => decide (e = Effect.agentShutdown)) = 0 :=
      List.countP_eq_zero.mpr (fun e he => by
        rcases List.mem_map.mp he with ⟨x, _, rfl⟩
        simp)
    simp [shutdownCount, signalHandler, List.countP_cons, List.countP_append, hz]

theorem c4_witness :
    deleteCount 0 (signalHandler 2 [0, 1] true).1 = 1 ∧
    deleteCount 1 (signalHandler 2 [0, 1] true).1 = 1 ∧
    shutdownCount (signalHandler 2 [0, 1] true).1 = 1 ∧
    (signalHandler 2 [0, 1] true).2 = Outcome.exited 2 :=
  ⟨(c4_interrupt_teardown 2 [0, 1] (by decide)).1 0 (by decide),
   (c4_interrupt_teardown 2 [0, 1] (by decide)).1 1 (by decide),
   (c4_interrupt_teardown 2 [0, 1] (by decide)).2.1,
   (c4_interrupt_teardown 2 [0, 1] (by decide)).2.2⟩

/-- Claim C5 (counterexample to the claim as stated): an invocation that
supplies no configuration source but passes a non-numeric value to `-st`
(`reader -st xyz`) never reaches the usage check — the uncaught `std::stoull`
exception aborts the process with no output at all, so no usage message is
printed to standard error. -/
theorem c5_counterexample :
    (mainModel "reader" ["-st", "xyz"] bQuiet).trace = [] ∧
    (mainModel "reader" ["-st", "xyz"] bQuiet).outcome = Outcome.aborted :=
  ⟨rfl, rfl⟩

/-- Claim C5 (amended): for every invocation whose argument vector parses
without a `std::stoull` exception and leaves the configuration source empty,
the program prints the usage message to standard error, exits with the
non-zero status `EXIT_FAILURE`, makes no backend call and no chunk
release/allocation. -/
theorem c5_missing_config_usage (prog : String) (args : List String) (b : Backend)
    (c : Config) (hp : parseLoop args defaultConfig = .ok c) (hconf : c.conf_file = "") :
    (mainModel prog args b).trace = [Effect.err (usageMsg prog)] ∧
    (mainModel prog args b).outcome = Outcome.exited EXIT_FAILURE ∧
    EXIT_FAILURE ≠ 0 ∧
    backendCalls (mainModel prog args b).trace = [] ∧
    ∀ a, Effect.deleteChunk a ∉ (mainModel prog args b).trace := by
  have ht : (mainModel prog args b).trace = [Effect.err (usageMsg prog)] := by
    simp [mainModel, hp, hconf]
  refine ⟨ht, ?_, by decide, ?_, ?_⟩
  · simp [mainModel, hp, hconf]
  · rw [ht]; rfl
  · intro a
    rw [ht]
    simp

theorem c5_witness :
    (mainModel "reader" [] bQuiet).trace = [Effect.err (usageMsg "reader")] ∧
    (mainModel "reader" [] bQuiet).outcome = Outcome.exited EXIT_FAILURE ∧
    EXIT_FAILURE ≠ 0 ∧
    backendCalls (mainModel "reader" [] bQuiet).trace = [] ∧
    ∀ a, Effect.deleteChunk a ∉ (mainModel "reader" [] bQuiet).trace :=
  c5_missing_config_usage "reader" [] bQuiet defaultConfig rfl rfl

/-- Claim C6 (evidence of the code bug): with a backend whose open call
reports failure, the backend-call subsequence of the run is
open(failed) → read → shutdown: the blocking read is still invoked after the
failed open, because reader.cpp line 75 discards the status. -/
theorem c6_read_invoked_after_failed_init :
    backendCalls (mainModel "reader" ["-c", "conf.json"] bInitFail).trace =
      [Effect.agentInit false, Effect.agentRead [] true, Effect.agentShutdown] ∧
    (mainModel "reader" ["-c", "conf.json"] bInitFail).outcome = Outcome.exited 0 :=
  ⟨by decide, rfl⟩

/-- Claim C7 (evidence of the code bug): with a backend whose read call
reports failure after appending one chunk, the run still renders that chunk
(the event-count header is printed) and exits 0 — the failure is discarded at
reader.cpp line 80, so rendering is not skipped and nothing is reported. -/
theorem c7_renders_after_failed_read :
    Effect.agentRead [] false ∈ (mainModel "reader" ["-c", "conf.json"] bReadFail).trace ∧
    Effect.out "Chunk with 1 events:" ∈
      (mainModel "reader" ["-c", "conf.json"] bReadFail).trace ∧
    (mainModel "reader" ["-c", "conf.json"] bReadFail).outcome = Outcome.exited 0 :=
  ⟨by decide, by decide, rfl⟩

/-- Claim C8: in every run, the read call receives the result collection
empty (the recorded pre-collection of any `agentRead` event is `[]`), and
after normal-path teardown completes the final collection is empty. -/
theorem c8_collection_empty (prog : String) (args : List String) (b : Backend)
    (pre : List Nat) (ok : Bool)
    (h : Effect.agentRead pre ok ∈ (mainModel prog args b).trace) :
    pre = [] ∧ (mainModel prog args b).finalChunks = [] := by
  have hfin : (mainModel prog args b).finalChunks = [] := by
    unfold mainModel
    cases parseLoop args defaultConfig with
    | error e => rfl
    | ok c =>
      by_cases hc : c.conf_file = ""
      · simp [hc]
      · simp only [hc, if_false]
        unfold mainAfterConf
        split
        · rfl
        · rfl
  refine ⟨?_, hfin⟩
  unfold mainModel at h
  rcases hpl : parseLoop args defaultConfig with e | c
  · simp [hpl] at h
  · simp only [hpl] at h
    by_cases hc : c.conf_file = ""
    · simp [hc] at h
    · simp only [hc, if_false] at h
      unfold mainAfterConf at h
      by_cases hl : b.loggerInit = 1
      · simp [hl] at h
      · simp only [hl, if_false] at h
        simp [renderAndDelete, List.mem_append, List.mem_cons, List.mem_map,
          agentRead_notin_renderLoop] at h
        exact h.1

theorem c8_witness :
    ([] : List Nat) = [] ∧
    (mainModel "reader" ["-c", "conf.json"] bOneChunk).finalChunks = [] :=
  c8_collection_empty "reader" ["-c", "conf.json"] bOneChunk [] true (by decide)

/-- Claim C9: rendering an empty result collection prints the chunk count 0
and emits no chunk bodies and no further effects. -/
theorem c9_empty_collection_render (hp : Nat → StoryChunk) :
    renderAndDelete hp [] = [Effect.out "0 chunk(s) returned."] := rfl

/-- Claim C10: the flag loop updates the time window only for `-st`/`--start`
and `-et`/`--end`: any argument vector free of those four tokens (in
particular one using the advertised `-s`/`-e`) parses successfully with the
default start and end times unchanged — while the usage message advertises
`[-s startTime] [-e endTime]`. -/
theorem c10_start_end_flags_only (args : List String)
    (h1 : "-st" ∉ args) (h2 : "--start" ∉ args) (h3 : "-et" ∉ args) (h4 : "--end" ∉ args) :
    (∃ c2, parseLoop args defaultConfig = .ok c2 ∧
      c2.start_time = defaultStart ∧ c2.end_time = defaultEnd) ∧
    usageMsg "reader" =
      "Usage: reader -c <config.json> [-C chronicle] [-S story] [-s startTime] [-e endTime]" :=
  ⟨parseFuel_defaults args.length args defaultConfig h1 h2 h3 h4, rfl⟩

theorem c10_witness :
    (∃ c2, parseLoop ["-s", "123", "-e", "456"] defaultConfig = .ok c2 ∧
      c2.start_time = defaultStart ∧ c2.end_time = defaultEnd) ∧
    usageMsg "reader" =
      "Usage: reader -c <config.json> [-C chronicle] [-S story] [-s startTime] [-e endTime]" :=
  c10_start_end_flags_only ["-s", "123", "-e", "456"]
    (by decide) (by decide) (by decide) (by decide)
